import Mathlib

/-!
Verification of the World_in_AR sensor-fusion pipeline
(src/components/location.jsx, src/components/compass.jsx).

Scalars are embedded as exact rationals.  The JavaScript transcendental
functions (Math.sin, Math.cos, Math.atan2, Math.asin, Math.sqrt) and Math.PI
are abstracted into a `FloatModel` record of rational-valued functions, so
every definition stays computable; theorems that depend on analytic facts
about these functions (such as the range of atan2) take them as explicit
hypotheses, and witnesses instantiate concrete models.

JavaScript value semantics that the claims hinge on (undefined, NaN, and the
falsiness of the number 0 in `!x` tests) are modelled by the `JsNum` type in
the position-smoother embedding.
-/

namespace WorldInAR

/-- Abstraction of the JavaScript Math functions used by the pipeline.
Fields are arbitrary rational-valued functions; properties needed by a
theorem (e.g. the range of `atan2`) are taken as hypotheses of that
theorem. -/
structure FloatModel where
  sin : ℚ → ℚ
  cos : ℚ → ℚ
  atan2 : ℚ → ℚ → ℚ
  asin : ℚ → ℚ
  sqrt : ℚ → ℚ
  pi : ℚ

/-- The heading normalisation used throughout the source:
`if (h < 0) h += 360`. -/
def norm360 (h : ℚ) : ℚ := if h < 0 then h + 360 else h

/-- The repeated source idiom `Math.atan2(y, x) * 180 / Math.PI` followed by
the negative-value normalisation. -/
def headingFromAtan2 (M : FloatModel) (y x : ℚ) : ℚ :=
  norm360 (M.atan2 y x * 180 / M.pi)

/-! ## JavaScript number values for location.jsx's smoothPosition

`smoothPosition` guards with `!previousPos || !newPos.latitude ||
!newPos.longitude`, where `!x` is true for `undefined`, `NaN` and `0`. -/

/-- A JavaScript number-ish value: `undefined`, `NaN`, or an actual number. -/
inductive JsNum where
  | undef : JsNum
  | nan : JsNum
  | num : ℚ → JsNum
  deriving DecidableEq

/-- JavaScript falsiness of a number value: `undefined`, `NaN` and `0` are
falsy. -/
def JsNum.falsy : JsNum → Bool
  | .undef => true
  | .nan => true
  | .num x => x = 0

/-- JavaScript `isNaN`: true on `NaN` and on `undefined` (which coerces to
`NaN`). -/
def JsNum.isNaNb : JsNum → Bool
  | .undef => true
  | .nan => true
  | .num _ => false

/-- JavaScript `+` on number values (`undefined` coerces to `NaN`; `NaN`
propagates). -/
def JsNum.add : JsNum → JsNum → JsNum
  | .num a, .num b => .num (a + b)
  | _, _ => .nan

/-- JavaScript `-` on number values. -/
def JsNum.sub : JsNum → JsNum → JsNum
  | .num a, .num b => .num (a - b)
  | _, _ => .nan

/-- JavaScript `*` on number values. -/
def JsNum.mul : JsNum → JsNum → JsNum
  | .num a, .num b => .num (a * b)
  | _, _ => .nan

/-- JavaScript `/` on number values.  (At the single use site the divisor is
`Math.max(accuracy, 1) ≥ 1`, so division by zero cannot occur there.) -/
def JsNum.div : JsNum → JsNum → JsNum
  | .num a, .num b => .num (a / b)
  | _, _ => .nan

/-- JavaScript `Math.max` on number values (`NaN` if either argument is). -/
def JsNum.max : JsNum → JsNum → JsNum
  | .num a, .num b => .num (Max.max a b)
  | _, _ => .nan

/-- JavaScript `Math.min` on number values. -/
def JsNum.min : JsNum → JsNum → JsNum
  | .num a, .num b => .num (Min.min a b)
  | _, _ => .nan

/-- A latitude/longitude pair as handled by `smoothPosition`. -/
structure JsPos where
  latitude : JsNum
  longitude : JsNum
  deriving DecidableEq

/-- location.jsx `smoothPosition(newPos, previousPos, accuracy)`:
exponential position smoothing.  The first guard is
`!previousPos || !newPos.latitude || !newPos.longitude` (returning the raw
coordinates); the `isNaN` guard that returns the previous position comes
after it; then `smoothingFactor = Math.min(0.5, 10.0 / Math.max(accuracy,
1))`, the blend, and a final `isNaN` validation falling back to the raw
coordinates.  The catch-all also returns the raw coordinates. -/
def smoothPosition (newPos : JsPos) (previousPos : Option JsPos)
    (accuracy : JsNum) : JsPos :=
  match previousPos with
  | none => ⟨newPos.latitude, newPos.longitude⟩
  | some prev =>
    if newPos.latitude.falsy || newPos.longitude.falsy then
      ⟨newPos.latitude, newPos.longitude⟩
    else if newPos.latitude.isNaNb || newPos.longitude.isNaNb then
      ⟨prev.latitude, prev.longitude⟩
    else
      let smoothingFactor :=
        JsNum.min (.num 0.5) (JsNum.div (.num 10) (JsNum.max accuracy (.num 1)))
      let smoothedLat :=
        JsNum.add (JsNum.mul prev.latitude (JsNum.sub (.num 1) smoothingFactor))
          (JsNum.mul newPos.latitude smoothingFactor)
      let smoothedLon :=
        JsNum.add (JsNum.mul prev.longitude (JsNum.sub (.num 1) smoothingFactor))
          (JsNum.mul newPos.longitude smoothingFactor)
      if smoothedLat.isNaNb || smoothedLon.isNaNb then
        ⟨newPos.latitude, newPos.longitude⟩
      else
        ⟨smoothedLat, smoothedLon⟩

/-! ## location.jsx: movement metrics -/

/-- A smoothed position with timestamp, as passed to
`calculateMovementMetrics` (coordinates are genuine numbers here; the
source's `!pos.latitude` guard is the test `latitude = 0` on this
domain). -/
structure MovePos where
  latitude : ℚ
  longitude : ℚ
  timestamp : ℚ
  deriving DecidableEq

/-- Result record of `calculateMovementMetrics`. -/
structure MoveMetrics where
  gpsHeading : Option ℚ
  calculatedSpeed : ℚ
  distance : ℚ
  deriving DecidableEq

/-- The planar distance computed inside `calculateMovementMetrics`:
`Math.sqrt(deltaLatM² + deltaLonM²)` with `latToMeters = 111320` and
`lonToMeters = 111320 · cos(lat·π/180)`. -/
def movementDistance (M : FloatModel) (currentPos previousPos : MovePos) : ℚ :=
  let deltaLatM := (currentPos.latitude - previousPos.latitude) * 111320
  let deltaLonM := (currentPos.longitude - previousPos.longitude) *
    (111320 * M.cos (currentPos.latitude * M.pi / 180))
  M.sqrt (deltaLatM * deltaLatM + deltaLonM * deltaLonM)

/-- location.jsx `calculateMovementMetrics(currentPos, previousPos)`:
returns `{null, 0, 0}` when either position is missing, any coordinate is
falsy, or the elapsed time is nonpositive; otherwise distance, speed =
distance/Δt, and a heading `atan2(ΔlonM, ΔlatM)` (normalised) only when
distance > 0.5 m. -/
def calculateMovementMetrics (M : FloatModel)
    (currentPos previousPos : Option MovePos) : MoveMetrics :=
  match currentPos, previousPos with
  | some c, some p =>
    if c.latitude = 0 ∨ c.longitude = 0 ∨ p.latitude = 0 ∨ p.longitude = 0 then
      ⟨none, 0, 0⟩
    else
      let deltaTime := (c.timestamp - p.timestamp) / 1000
      if deltaTime ≤ 0 then ⟨none, 0, 0⟩
      else
        let deltaLatM := (c.latitude - p.latitude) * 111320
        let deltaLonM := (c.longitude - p.longitude) *
          (111320 * M.cos (c.latitude * M.pi / 180))
        let dist := M.sqrt (deltaLatM * deltaLatM + deltaLonM * deltaLonM)
        let speed := dist / deltaTime
        let heading :=
          if 0.5 < dist then some (headingFromAtan2 M deltaLonM deltaLatM)
          else none
        ⟨heading, speed, dist⟩
  | _, _ => ⟨none, 0, 0⟩

/-! ## location.jsx: dead-reckoning prediction -/

/-- A `{lat, lon, accuracy, timestamp}` entry of the bounded position
history. -/
structure HistEntry where
  lat : ℚ
  lon : ℚ
  accuracy : ℚ
  timestamp : ℚ
  deriving DecidableEq

/-- The `lastPositionRef` record. -/
structure LastPos where
  latitude : ℚ
  longitude : ℚ
  timestamp : ℚ
  accuracy : ℚ
  deriving DecidableEq

/-- Output of `predictPosition` (display-only fields — the formatted
timestamp string, update counters, `isRealGPS`/`predicted` flags and the
always-undefined altitude — are omitted). -/
structure Predicted where
  latitude : ℚ
  longitude : ℚ
  accuracy : ℚ
  predictionTime : ℚ
  deriving DecidableEq

/-- The last two entries of the history (latest, previous).
`predictPosition` takes `slice(-3)` and reads indices `length-1` and
`length-2`, i.e. exactly the last two elements; the third-from-last
element kept by the slice is never read. -/
def lastTwo {α : Type} (l : List α) : Option (α × α) :=
  match l.reverse with
  | latest :: previous :: _ => some (latest, previous)
  | _ => none

/-- location.jsx `predictPosition()`: dead-reckoning extrapolation.
Returns `none` when there is no last position, fewer than two history
entries, less than 100 ms since the last GPS update, or nonpositive Δt
between the last two history entries; otherwise extrapolates the last
history position by the velocity of the last two entries over
`predictTime = timeSinceLastGPS/1000` and degrades accuracy by
`(1 + predictTime)`.  (The final `isNaN` validation of the source cannot
fire over exact rationals and is not represented.) -/
def predictPosition (lastPosition : Option LastPos) (history : List HistEntry)
    (lastGpsUpdate now : ℚ) : Option Predicted :=
  match lastPosition with
  | none => none
  | some lp =>
    if history.length < 2 then none
    else
      let timeSinceLastGPS := now - lastGpsUpdate
      if timeSinceLastGPS < 100 then none
      else
        match lastTwo history with
        | none => none
        | some (latest, previous) =>
          let deltaTime := (latest.timestamp - previous.timestamp) / 1000
          if deltaTime ≤ 0 then none
          else
            let velocityLat := (latest.lat - previous.lat) / deltaTime
            let velocityLon := (latest.lon - previous.lon) / deltaTime
            let predictTime := timeSinceLastGPS / 1000
            some ⟨latest.lat + velocityLat * predictTime,
                  latest.lon + velocityLon * predictTime,
                  lp.accuracy * (1 + predictTime),
                  predictTime⟩

/-! ## compass.jsx: Kepler solver -/

/-- The Newton iterate sequence of the Kepler solver: `keplerE M m e n` is
the value of `E` after `n` executed loop iterations, starting from the
initial guess `E = meanAnomaly`. -/
def keplerE (M : FloatModel) (meanAnomaly eccentricity : ℚ) : ℕ → ℚ
  | 0 => meanAnomaly
  | n + 1 =>
    let E := keplerE M meanAnomaly eccentricity n
    E - (E - eccentricity * M.sin E - meanAnomaly) /
      (1 - eccentricity * M.cos E)

/-- The `delta` values of the Kepler solver: `keplerD M m e 0 = 1` is the
initial value; `keplerD M m e (n+1)` is the delta computed in the (n+1)-st
loop iteration. -/
def keplerD (M : FloatModel) (meanAnomaly eccentricity : ℚ) : ℕ → ℚ
  | 0 => 1
  | n + 1 =>
    let E := keplerE M meanAnomaly eccentricity n
    (E - eccentricity * M.sin E - meanAnomaly) /
      (1 - eccentricity * M.cos E)

/-- The `while (Math.abs(delta) > tolerance && iterations < 20)` loop of
`solveKeplerEquation`, with `fuel = 20 - iterations` remaining allowed
iterations. -/
def keplerLoop (M : FloatModel) (meanAnomaly eccentricity tolerance : ℚ) :
    ℕ → ℚ → ℚ → ℚ
  | 0, E, _ => E
  | fuel + 1, E, delta =>
    if tolerance < |delta| then
      let f := E - eccentricity * M.sin E - meanAnomaly
      let df := 1 - eccentricity * M.cos E
      let d := f / df
      keplerLoop M meanAnomaly eccentricity tolerance fuel (E - d) d
    else E

/-- compass.jsx `solveKeplerEquation(meanAnomaly, eccentricity)`:
Newton-Raphson for `E - e·sin(E) = M`, tolerance `1e-6` (the JS default
parameter), at most 20 iterations, starting from `E = meanAnomaly`,
`delta = 1`.  The loop always returns the current iterate `E`; the
mean-anomaly fallback in the source lives only in the exception handler. -/
def solveKeplerEquation (M : FloatModel) (meanAnomaly eccentricity : ℚ) : ℚ :=
  keplerLoop M meanAnomaly eccentricity (1e-6) 20 meanAnomaly 1

/-! ## compass.jsx: synthetic satellite geometry -/

/-- A satellite observation as produced by
`calculateEnhancedSatelliteOrbit`. -/
structure Sat where
  id : String
  constellation : String
  plane : ℕ
  satInPlane : ℕ
  azimuth : ℚ
  elevation : ℚ
  range : ℚ
  x : ℚ
  y : ℚ
  z : ℚ
  eciX : ℚ
  eciY : ℚ
  eciZ : ℚ
  trueAnomaly : ℚ
  meanAnomaly : ℚ
  eccentricAnomaly : ℚ
  signalStrength : ℚ
  doppler : ℚ
  health : ℚ
  deriving DecidableEq

/-- A 3-vector. -/
structure Vec3 where
  x : ℚ
  y : ℚ
  z : ℚ
  deriving DecidableEq

/-- One constellation's orbital parameters from the
`satelliteConstellations` table. -/
structure ConstellationParams where
  count : ℕ
  inclination : ℚ
  altitude : ℚ
  period : ℚ
  eccentricity : ℚ
  planes : ℕ
  raan : List ℚ
  deriving DecidableEq

/-- The `satelliteConstellations` table, in the source's insertion order. -/
def satelliteConstellations : List (String × ConstellationParams) :=
  [("GPS", ⟨24, 55.0, 20182000, 11.967, 0.02, 6, [0, 60, 120, 180, 240, 300]⟩),
   ("GLONASS", ⟨24, 64.8, 19130000, 11.25, 0.01, 3, [0, 120, 240]⟩),
   ("Galileo", ⟨24, 56.0, 23222000, 14.08, 0.001, 3, [0, 120, 240]⟩),
   ("BeiDou", ⟨24, 55.0, 21150000, 12.63, 0.01, 3, [0, 120, 240]⟩),
   ("QZSS", ⟨4, 43.0, 35786000, 24.0, 0.075, 1, [0]⟩),
   ("IRNSS", ⟨7, 29.0, 35786000, 24.0, 0.05, 1, [0]⟩)]

/-- JavaScript truncation toward zero (used by the `%` operator). -/
def jsTrunc (x : ℚ) : ℤ := if 0 ≤ x then ⌊x⌋ else ⌈x⌉

/-- JavaScript `%` on rationals: remainder with the sign of the dividend. -/
def jsMod (a b : ℚ) : ℚ := a - b * (jsTrunc (a / b) : ℚ)

/-- compass.jsx `calculateGMST(julianDay)`: Greenwich Mean Sidereal Time,
normalised to [0, 360) by `((gmst % 360) + 360) % 360`, returned in
radians. -/
def calculateGMST (M : FloatModel) (julianDay : ℚ) : ℚ :=
  let t := (julianDay - 2451545.0) / 36525.0
  let gmst := 280.46061837 + 360.98564736629 * (julianDay - 2451545.0) +
    0.000387933 * t * t - t * t * t / 38710000.0
  jsMod (jsMod gmst 360 + 360) 360 * M.pi / 180

/-- compass.jsx `transformToECI(x, y, z, inc, raan, argLat)`. -/
def transformToECI (M : FloatModel) (x y z inc raan argLat : ℚ) : Vec3 :=
  let cosRaan := M.cos raan
  let sinRaan := M.sin raan
  let cosInc := M.cos inc
  let sinInc := M.sin inc
  let cosArgLat := M.cos argLat
  let sinArgLat := M.sin argLat
  ⟨x * (cosRaan * cosArgLat - sinRaan * sinArgLat * cosInc) -
     y * (cosRaan * sinArgLat + sinRaan * cosArgLat * cosInc),
   x * (sinRaan * cosArgLat + cosRaan * sinArgLat * cosInc) -
     y * (sinRaan * sinArgLat - cosRaan * cosArgLat * cosInc),
   x * (sinArgLat * sinInc) + y * (cosArgLat * sinInc)⟩

/-- compass.jsx `transformToECEF(xEci, yEci, zEci, gmst)`. -/
def transformToECEF (M : FloatModel) (xEci yEci zEci gmst : ℚ) : Vec3 :=
  let cosGmst := M.cos gmst
  let sinGmst := M.sin gmst
  ⟨xEci * cosGmst + yEci * sinGmst, -xEci * sinGmst + yEci * cosGmst, zEci⟩

/-- Result of `calculateEnhancedAzimuthElevation`. -/
structure AzEl where
  azimuth : ℚ
  elevation : ℚ
  range : ℚ
  north : ℚ
  east : ℚ
  up : ℚ
  deriving DecidableEq

/-- compass.jsx `calculateEnhancedAzimuthElevation(lat, lon, alt, satX,
satY, satZ)`: North-East-Up transform of the observer-to-satellite vector,
azimuth `atan2(east, north)` normalised, elevation `asin(up/range)`. -/
def calculateEnhancedAzimuthElevation (M : FloatModel)
    (lat lon alt satX satY satZ : ℚ) : AzEl :=
  let earthRadius : ℚ := 6371000
  let latRad := lat * M.pi / 180
  let lonRad := lon * M.pi / 180
  let obsX := (earthRadius + alt) * M.cos latRad * M.cos lonRad
  let obsY := (earthRadius + alt) * M.cos latRad * M.sin lonRad
  let obsZ := (earthRadius + alt) * M.sin latRad
  let dx := satX - obsX
  let dy := satY - obsY
  let dz := satZ - obsZ
  let north := -M.sin latRad * M.cos lonRad * dx -
    M.sin latRad * M.sin lonRad * dy + M.cos latRad * dz
  let east := -M.sin lonRad * dx + M.cos lonRad * dy
  let up := M.cos latRad * M.cos lonRad * dx +
    M.cos latRad * M.sin lonRad * dy + M.sin latRad * dz
  let range := M.sqrt (dx * dx + dy * dy + dz * dz)
  let elevation := M.asin (up / range) * 180 / M.pi
  let azimuth := headingFromAtan2 M east north
  ⟨azimuth, elevation, range, north, east, up⟩

/-- compass.jsx `calculateSignalStrength(elevation, range)`: product of an
atmospheric-attenuation and a range-attenuation term, clamped to [0, 1]. -/
def calculateSignalStrength (M : FloatModel) (elevation range : ℚ) : ℚ :=
  let atmosphericLoss := max 0 (1 - (90 - elevation) / 90 * 0.3)
  let rangeLoss := max 0.1 (1 - range / 25000000)
  max 0 (min 1 (atmosphericLoss * rangeLoss))

/-- compass.jsx `calculateDopplerShift(eci, ecef, meanMotion)`. -/
def calculateDopplerShift (M : FloatModel) (eci ecef : Vec3)
    (meanMotion : ℚ) : ℚ :=
  let velocity := meanMotion * M.sqrt (eci.x * eci.x + eci.y * eci.y + eci.z * eci.z)
  let range := M.sqrt (ecef.x * ecef.x + ecef.y * ecef.y + ecef.z * ecef.z)
  velocity / range * 1575.42e6 / 299792458

/-- compass.jsx `calculateEnhancedSatelliteOrbit(lat, lon, alt, julianDay,
gmst, constellation, params, plane, satInPlane)`: Keplerian elements,
Kepler-equation solution, true anomaly, orbital-plane position, ECI and
ECEF transforms, and observer-relative azimuth/elevation/range.
`Math.ceil(params.count / params.planes)` is the ceiling division
`(count + planes - 1) / planes` on naturals. -/
def calculateEnhancedSatelliteOrbit (M : FloatModel)
    (lat lon alt julianDay gmst : ℚ) (constellation : String)
    (params : ConstellationParams) (plane satInPlane : ℕ) : Sat :=
  let mu : ℚ := 3.986004418e14
  let meanMotion := M.sqrt (mu / params.altitude ^ 3)
  let inclination := params.inclination * M.pi / 180
  let eccentricity := params.eccentricity
  let raan := params.raan.getD plane 0 * M.pi / 180
  let argOfPerigee : ℚ := 0
  let satsPerPlane := (params.count + params.planes - 1) / params.planes
  let timeOffset := (satInPlane : ℚ) * (2 * M.pi / (satsPerPlane : ℚ))
  let meanAnomaly := meanMotion * (julianDay - 2451545.0) * 86400 + timeOffset
  let eccentricAnomaly := solveKeplerEquation M meanAnomaly eccentricity
  let trueAnomaly := 2 * M.atan2
    (M.sqrt (1 + eccentricity) * M.sin (eccentricAnomaly / 2))
    (M.sqrt (1 - eccentricity) * M.cos (eccentricAnomaly / 2))
  let radius := params.altitude * (1 - eccentricity * M.cos eccentricAnomaly)
  let xOrb := radius * M.cos trueAnomaly
  let yOrb := radius * M.sin trueAnomaly
  let eci := transformToECI M xOrb yOrb 0 inclination raan
    (argOfPerigee + trueAnomaly)
  let ecef := transformToECEF M eci.x eci.y eci.z gmst
  let ae := calculateEnhancedAzimuthElevation M lat lon alt ecef.x ecef.y ecef.z
  ⟨constellation ++ "-" ++ toString plane ++ "-" ++ toString satInPlane,
   constellation, plane, satInPlane, ae.azimuth, ae.elevation, ae.range,
   ecef.x, ecef.y, ecef.z, eci.x, eci.y, eci.z,
   trueAnomaly, meanAnomaly, eccentricAnomaly,
   calculateSignalStrength M ae.elevation ae.range,
   calculateDopplerShift M eci ecef meanMotion, 1.0⟩

/-- compass.jsx `calculateSatellitePositions(lat, lon, altitude,
timestamp)`: iterates the constellation table, planes, and slots; the inner
loop guard `satellites.length < params.count` tests the accumulated list
(all constellations so far), as in the source; a satellite is kept when its
elevation exceeds 5°. -/
def calculateSatellitePositions (M : FloatModel)
    (lat lon altitude timestamp : ℚ) : List Sat :=
  let julianDay := timestamp / 86400000 + 2440587.5
  let gmst := calculateGMST M julianDay
  satelliteConstellations.foldl (fun satellites cp =>
    let params := cp.2
    let satsPerPlane := (params.count + params.planes - 1) / params.planes
    (List.range params.planes).foldl (fun sats1 plane =>
      (List.range satsPerPlane).foldl (fun sats2 satInPlane =>
        if sats2.length < params.count then
          let satellite := calculateEnhancedSatelliteOrbit M lat lon altitude
            julianDay gmst cp.1 params plane satInPlane
          if 5 < satellite.elevation then sats2 ++ [satellite] else sats2
        else sats2) sats1) satellites) []

/-- A `{satellites, timestamp}` snapshot of the satellite history buffer. -/
structure SatSnapshot where
  satellites : List Sat
  timestamp : ℚ
  deriving DecidableEq

/-- The `push`-then-`shift` idiom used on the bounded history buffers. -/
def pushCap {α : Type} (cap : ℕ) (l : List α) (x : α) : List α :=
  let l2 := l ++ [x]
  if cap < l2.length then l2.drop 1 else l2

/-- The satellite-computation step of `processCompassData` (compass.jsx
lines 711-731): computes the observation set from the location and
timestamp only, then appends a snapshot to the 30-bounded history.  The
mutable history state is an explicit argument here; the observation set
does not read it. -/
def compassSatelliteStep (M : FloatModel) (satelliteHistory : List SatSnapshot)
    (lat lon altitude now : ℚ) : List Sat × List SatSnapshot :=
  let satellites := calculateSatellitePositions M lat lon altitude now
  (satellites, pushCap 30 satelliteHistory ⟨satellites, now⟩)

/-! ## compass.jsx: geometric heading triangulation -/

/-- The azimuth/elevation separation `Math.sqrt(azDiff² + elDiff²)` used by
`calculateGeometryWeight`. -/
def angularSeparation (M : FloatModel) (a b : Sat) : ℚ :=
  let azDiff := |a.azimuth - b.azimuth|
  let elDiff := |a.elevation - b.elevation|
  M.sqrt (azDiff * azDiff + elDiff * elDiff)

/-- compass.jsx `calculateGeometryWeight(satellite, allSatellites)`:
minimum separation to any other satellite (starting from 180), normalised
to 30 degrees and clamped to 1. -/
def calculateGeometryWeight (M : FloatModel) (satellite : Sat)
    (allSatellites : List Sat) : ℚ :=
  let minSeparation := allSatellites.foldl (fun m other =>
    if other.id ≠ satellite.id then min m (angularSeparation M satellite other)
    else m) 180
  min 1 (minSeparation / 30)

/-- compass.jsx `calculatePDOP(satellites)`. -/
def calculatePDOP (M : FloatModel) (satellites : List Sat) : ℚ :=
  if satellites.length < 4 then 99
  else
    let avgElevation := (satellites.map Sat.elevation).sum / satellites.length
    let elevationFactor := M.sin (avgElevation * M.pi / 180)
    max 1 (4 / (satellites.length * elevationFactor))

/-- `Math.max(...list)` over a nonempty list (used on lists of at least 4
satellites). -/
def listMax : List ℚ → ℚ
  | [] => 0
  | x :: xs => xs.foldl max x

/-- `Math.min(...list)` over a nonempty list. -/
def listMin : List ℚ → ℚ
  | [] => 0
  | x :: xs => xs.foldl min x

/-- compass.jsx `calculateAdvancedGeometryScore(satellites)`. -/
def calculateAdvancedGeometryScore (M : FloatModel)
    (satellites : List Sat) : ℚ :=
  if satellites.length < 4 then 0
  else
    let avgElevation := (satellites.map Sat.elevation).sum / satellites.length
    let elevationSpread := listMax (satellites.map Sat.elevation) -
      listMin (satellites.map Sat.elevation)
    let azimuthSpread := listMax (satellites.map Sat.azimuth) -
      listMin (satellites.map Sat.azimuth)
    let pdop := calculatePDOP M satellites
    let elevationScore := min 100 ((avgElevation / 45) * 30)
    let spreadScore := min 100 ((elevationSpread / 60) * 25 + (azimuthSpread / 360) * 25)
    let pdopScore := min 100 (max 0 ((5 - pdop) / 5 * 20))
    elevationScore + spreadScore + pdopScore

/-- The quality filter of the triangulator: elevation > 15° and signal
strength > 0.3. -/
def goodSatellitesOf (satellites : List Sat) : List Sat :=
  satellites.filter fun sat =>
    decide (15 < sat.elevation) && decide (0.3 < sat.signalStrength)

/-- The per-satellite weights of the triangulator:
`sin(elevation·π/180) · signalStrength · geometryWeight`. -/
def triWeight (M : FloatModel) (good : List Sat) (sat : Sat) : ℚ :=
  M.sin (sat.elevation * M.pi / 180) * sat.signalStrength *
    calculateGeometryWeight M sat good

/-- The accumulated total weight of the triangulator. -/
def triTotalWeight (M : FloatModel) (good : List Sat) : ℚ :=
  (good.map (triWeight M good)).sum

/-- The accumulated weighted unit-vector sums `(Σ w·cos az, Σ w·sin az)` of
the triangulator. -/
def triVector (M : FloatModel) (good : List Sat) : ℚ × ℚ :=
  ((good.map fun sat => triWeight M good sat * M.cos (sat.azimuth * M.pi / 180)).sum,
   (good.map fun sat => triWeight M good sat * M.sin (sat.azimuth * M.pi / 180)).sum)

/-- The resultant magnitude of the triangulator after normalisation by the
total weight. -/
def triMagnitude (M : FloatModel) (good : List Sat) : ℚ :=
  let totalWeight := triTotalWeight M good
  let nx := (triVector M good).1 / totalWeight
  let ny := (triVector M good).2 / totalWeight
  M.sqrt (nx * nx + ny * ny)

/-- Result record of the triangulator. -/
structure TriResult where
  north : ℚ
  confidence : ℚ
  satelliteCount : ℕ
  geometryScore : ℚ
  deriving DecidableEq

/-- compass.jsx `calculateAdvancedSatelliteTriangulationNorth(satellites)`:
requires 4 raw satellites and 4 good ones, positive total weight, and a
normalised resultant magnitude strictly above 0.1; returns the circular
mean of the good azimuths with confidence
`min(1, magnitude · count / 10)`. -/
def calculateAdvancedSatelliteTriangulationNorth (M : FloatModel)
    (satellites : List Sat) : Option TriResult :=
  if satellites.length < 4 then none
  else
    let goodSatellites := goodSatellitesOf satellites
    if goodSatellites.length < 4 then none
    else
      let totalWeight := triTotalWeight M goodSatellites
      if 0 < totalWeight then
        let magnitude := triMagnitude M goodSatellites
        if 0.1 < magnitude then
          some ⟨headingFromAtan2 M ((triVector M goodSatellites).2 / totalWeight)
                  ((triVector M goodSatellites).1 / totalWeight),
                min 1 (magnitude * goodSatellites.length / 10),
                goodSatellites.length,
                calculateAdvancedGeometryScore M goodSatellites⟩
        else none
      else none

/-! ## compass.jsx: trajectory-predicted heading -/

/-- A predicted trajectory vector of
`calculateEnhancedTrajectoryPredictedNorth`. -/
structure TrajVec where
  id : String
  azimuth : ℚ
  elevation : ℚ
  velocity : ℚ
  weight : ℚ
  deriving DecidableEq

/-- Result record of the trajectory predictor. -/
structure TrajResult where
  north : ℚ
  confidence : ℚ
  avgVelocity : ℚ
  deriving DecidableEq

/-- compass.jsx `calculateEnhancedTrajectoryPredictedNorth(satellites,
previousSatellites)`: matches satellites by id with the previous snapshot,
extrapolates azimuth/elevation one second ahead (`deltaTime = 1`), keeps
predictions with elevation > 10° from satellites currently above 15°,
requires at least 4 of them, and applies the weighted circular mean with a
0.1 magnitude floor. -/
def calculateEnhancedTrajectoryPredictedNorth (M : FloatModel)
    (satellites : List Sat) (previousSatellites : Option (List Sat)) :
    Option TrajResult :=
  match previousSatellites with
  | none => none
  | some prev =>
    if prev.length < 4 then none
    else
      let deltaTime : ℚ := 1.0
      let trajectoryVectors := satellites.filterMap fun sat =>
        match prev.find? (fun p => p.id = sat.id) with
        | none => none
        | some prevSat =>
          if (15 : ℚ) < sat.elevation then
            let azVelocity := (sat.azimuth - prevSat.azimuth) / deltaTime
            let elVelocity := (sat.elevation - prevSat.elevation) / deltaTime
            let predictedAz := sat.azimuth + azVelocity * deltaTime
            let predictedEl := sat.elevation + elVelocity * deltaTime
            if 10 < predictedEl then
              some ⟨sat.id, predictedAz, predictedEl,
                    M.sqrt (azVelocity * azVelocity + elVelocity * elVelocity),
                    M.sin (predictedEl * M.pi / 180) * sat.signalStrength⟩
            else none
          else none
      if trajectoryVectors.length < 4 then none
      else
        let totalWeight := (trajectoryVectors.map TrajVec.weight).sum
        let px := (trajectoryVectors.map fun v =>
          v.weight * M.cos (v.azimuth * M.pi / 180)).sum
        let py := (trajectoryVectors.map fun v =>
          v.weight * M.sin (v.azimuth * M.pi / 180)).sum
        if 0 < totalWeight then
          let nx := px / totalWeight
          let ny := py / totalWeight
          let magnitude := M.sqrt (nx * nx + ny * ny)
          if 0.1 < magnitude then
            some ⟨headingFromAtan2 M ny nx,
                  min 1 (magnitude * trajectoryVectors.length / 10),
                  (trajectoryVectors.map TrajVec.velocity).sum /
                    trajectoryVectors.length⟩
          else none
        else none

/-! ## compass.jsx: inertial (IMU) heading -/

/-- A device-orientation sample `{alpha, beta, gamma}`. -/
structure Orient3 where
  alpha : ℚ
  beta : ℚ
  gamma : ℚ
  deriving DecidableEq

/-- A unit-quaternion candidate `[w, x, y, z]`. -/
structure Quat where
  w : ℚ
  x : ℚ
  y : ℚ
  z : ℚ
  deriving DecidableEq

/-- The `imuFilterRef` state. -/
structure ImuState where
  orientation : Option Orient3
  angularVelocity : Option Orient3
  linearAcceleration : Option Vec3
  quaternion : Quat
  gyroBias : Vec3
  accelBias : Vec3
  calibrated : Bool
  deriving DecidableEq

/-- The initial `imuFilterRef` state. -/
def initialImuState : ImuState :=
  ⟨none, none, none, ⟨1, 0, 0, 0⟩, ⟨0, 0, 0⟩, ⟨0, 0, 0⟩, false⟩

/-- The gyroscope-integration step of `processIMUData`: bias correction,
`dt = 0.1`, half-angle delta quaternion when the rotation magnitude exceeds
0.001, left-to-right quaternion product, and renormalisation when the norm
is positive. -/
def gyroUpdate (M : FloatModel) (st : ImuState) (rotationRate : Option Orient3) :
    ImuState :=
  match rotationRate with
  | none => st
  | some rr =>
    let dt : ℚ := 0.1
    let correctedAlpha := rr.alpha - st.gyroBias.x
    let correctedBeta := rr.beta - st.gyroBias.y
    let correctedGamma := rr.gamma - st.gyroBias.z
    let deltaAlpha := correctedAlpha * dt
    let deltaBeta := correctedBeta * dt
    let deltaGamma := correctedGamma * dt
    let magnitude := M.sqrt (deltaAlpha * deltaAlpha + deltaBeta * deltaBeta +
      deltaGamma * deltaGamma)
    if 0.001 < magnitude then
      let halfAngle := magnitude / 2
      let s := M.sin halfAngle
      let c := M.cos halfAngle
      let dq : Quat := ⟨c, s * deltaAlpha / magnitude, s * deltaBeta / magnitude,
        s * deltaGamma / magnitude⟩
      let q := st.quaternion
      let q2 : Quat :=
        ⟨q.w * dq.w - q.x * dq.x - q.y * dq.y - q.z * dq.z,
         q.w * dq.x + q.x * dq.w + q.y * dq.z - q.z * dq.y,
         q.w * dq.y - q.x * dq.z + q.y * dq.w + q.z * dq.x,
         q.w * dq.z + q.x * dq.y - q.y * dq.x + q.z * dq.w⟩
      let norm := M.sqrt (q2.w * q2.w + q2.x * q2.x + q2.y * q2.y + q2.z * q2.z)
      if 0 < norm then
        { st with quaternion := ⟨q2.w / norm, q2.x / norm, q2.y / norm, q2.z / norm⟩ }
      else
        { st with quaternion := q2 }
    else st

/-- The heading extraction at the end of `processIMUData`:
`atan2(2(q0q3 + q1q2), 1 - 2(q2² + q3²))` in degrees, normalised. -/
def quatHeading (M : FloatModel) (q : Quat) : ℚ :=
  headingFromAtan2 M (2 * (q.w * q.z + q.x * q.y))
    (1 - 2 * (q.y * q.y + q.z * q.z))

/-- compass.jsx `processIMUData(acceleration, rotationRate, orientation)`
as an explicit state transformer.  The first call with an orientation
sample only seeds the state and returns no heading.  The accelerometer
branch low-pass blends a gravity reference with gain 0.02 when the
acceleration magnitude lies in (0.5, 15); if the stored
`linearAcceleration` is still null there, the source throws a TypeError
that its catch converts to a null return — after the quaternion was
already updated — which is modelled by returning `(state, none)` in that
branch. -/
def processIMUData (M : FloatModel) (st : ImuState) (acceleration : Option Vec3)
    (rotationRate : Option Orient3) (orientation : Option Orient3) :
    ImuState × Option ℚ :=
  if st.orientation.isNone ∧ orientation.isSome then
    ({ st with
        orientation := orientation,
        angularVelocity := rotationRate,
        linearAcceleration := acceleration }, none)
  else
    let st1 := gyroUpdate M st rotationRate
    match acceleration with
    | none => (st1, some (quatHeading M st1.quaternion))
    | some a =>
      let norm := M.sqrt (a.x * a.x + a.y * a.y + a.z * a.z)
      if 0.5 < norm ∧ norm < 15 then
        match st1.linearAcceleration with
        | none => (st1, none)
        | some la =>
          let normalizedAccel : Vec3 := ⟨a.x / norm, a.y / norm, a.z / norm⟩
          let gravityCorrection : ℚ := 0.02
          let blended : Vec3 :=
            ⟨la.x * (1 - gravityCorrection) + normalizedAccel.x * gravityCorrection,
             la.y * (1 - gravityCorrection) + normalizedAccel.y * gravityCorrection,
             la.z * (1 - gravityCorrection) + normalizedAccel.z * gravityCorrection⟩
          let st2 := { st1 with linearAcceleration := some blended }
          (st2, some (quatHeading M st2.quaternion))
      else (st1, some (quatHeading M st1.quaternion))

/-! ## compass.jsx: device-compass smoothing (handleOrientation) -/

/-- The device compass reading of `handleOrientation`:
`webkitCompassHeading` when defined, else `360 - event.alpha`. -/
def deviceCompassOf (webkitHeading : Option ℚ) (alpha : ℚ) : ℚ :=
  match webkitHeading with
  | some w => w
  | none => 360 - alpha

/-- The compass-history smoothing of `handleOrientation`: push the reading
into the 10-bounded history and average. -/
def smoothedCompassOf (compassHistory : List ℚ) (deviceCompass : ℚ) : ℚ :=
  let h := pushCap 10 compassHistory deviceCompass
  h.sum / h.length

/-! ## compass.jsx: multi-source fusion -/

/-- Source tags of the fusion engine. -/
inductive SourceTag where
  | device
  | satellite
  | trajectory
  | imu
  | gps
  deriving DecidableEq

/-- A `{heading, weight, source, confidence}` entry of the fusion engine's
`sources` array. -/
structure FusionSource where
  heading : ℚ
  weight : ℚ
  tag : SourceTag
  confidence : ℚ
  deriving DecidableEq

/-- The `{north, confidence}` parts of a triangulation or trajectory result
as consumed by the fusion engine. -/
structure NorthResult where
  north : ℚ
  confidence : ℚ
  deriving DecidableEq

/-- Fusion output record. -/
structure FusionResult where
  heading : ℚ
  confidence : ℚ
  sources : List FusionSource
  deriving DecidableEq

/-- The `sources` array built by `fuseCompassSources`, in push order:
device `{w: 0.25, c: 0.8}`, satellite `{w: 0.3·c, c}`, trajectory
`{w: 0.25·c, c}`, imu `{w: 0.15·c, c}` with `c` 0.9 when calibrated else
0.6, gps `{w: 0.05, c: 0.7}`. -/
def buildSources (calibrated : Bool) (deviceCompass : Option ℚ)
    (satelliteResult trajectoryResult : Option NorthResult)
    (imuHeading gpsHeading : Option ℚ) : List FusionSource :=
  (match deviceCompass with
   | some d => [⟨d, 0.25, .device, 0.8⟩]
   | none => []) ++
  (match satelliteResult with
   | some s => [⟨s.north, 0.3 * s.confidence, .satellite, s.confidence⟩]
   | none => []) ++
  (match trajectoryResult with
   | some t => [⟨t.north, 0.25 * t.confidence, .trajectory, t.confidence⟩]
   | none => []) ++
  (match imuHeading with
   | some h =>
     let imuConfidence : ℚ := if calibrated then 0.9 else 0.6
     [⟨h, 0.15 * imuConfidence, .imu, imuConfidence⟩]
   | none => []) ++
  (match gpsHeading with
   | some g => [⟨g, 0.05, .gps, 0.7⟩]
   | none => [])

/-- The fusion loop of `fuseCompassSources` over an already-built source
list: accumulates `sin`/`cos` sums and the total weight with
`effectiveWeight = weight · confidence`, normalises by the total weight,
and reports confidence `min(1, totalWeight / 0.5)`. -/
def fuseList (M : FloatModel) (sources : List FusionSource) :
    Option FusionResult :=
  if sources.length = 0 then none
  else
    let sinSum := (sources.map fun s =>
      M.sin (s.heading * M.pi / 180) * (s.weight * s.confidence)).sum
    let cosSum := (sources.map fun s =>
      M.cos (s.heading * M.pi / 180) * (s.weight * s.confidence)).sum
    let totalWeight := (sources.map fun s => s.weight * s.confidence).sum
    if 0 < totalWeight then
      some ⟨headingFromAtan2 M (sinSum / totalWeight) (cosSum / totalWeight),
            min 1 (totalWeight / 0.5), sources⟩
    else none

/-- compass.jsx `fuseCompassSources(deviceCompass, satelliteResult,
trajectoryResult, imuHeading, gpsHeading)` (the `calibrated` flag comes
from the IMU filter state). -/
def fuseCompassSources (M : FloatModel) (calibrated : Bool)
    (deviceCompass : Option ℚ)
    (satelliteResult trajectoryResult : Option NorthResult)
    (imuHeading gpsHeading : Option ℚ) : Option FusionResult :=
  fuseList M (buildSources calibrated deviceCompass satelliteResult
    trajectoryResult imuHeading gpsHeading)

/-! ## Concrete float models for witnesses and counterexamples

The trig fields of `FloatModel` are arbitrary rational functions; these
concrete instances are used to instantiate theorems and to exhibit
counterexamples inside the parametric embedding. -/

/-- An evaluation model: `sin = id`, `cos = 1`, `atan2 y x = y`,
`sqrt = id`, `π = 180` (so degree/radian conversions are the identity and
the circular-mean round trip `atan2(sin h, cos h) = h` holds on
[0, 360)). -/
def modelEval : FloatModel :=
  ⟨id, fun _ => 1, fun y _ => y, id, id, 180⟩

/-- A model whose `atan2` is constantly 90, inside the range
(-180, 180] after the degree conversion with `π = 180`. -/
def modelRange : FloatModel :=
  ⟨id, id, fun _ _ => 90, id, id, 180⟩

/-- A model under which the Kepler Newton iteration diverges:
`sin = id`, `cos = 0`. -/
def modelKepler : FloatModel :=
  ⟨id, fun _ => 0, fun _ _ => 0, id, id, 180⟩

/-- A model whose `sqrt` is constantly 1/10, and `sin`, `cos` constantly
1: it realises a triangulation resultant magnitude of exactly 0.1. -/
def modelTiny : FloatModel :=
  ⟨fun _ => 1, fun _ => 1, fun _ _ => 0, id, fun _ => 1/10, 180⟩

/-- A model with `sin`, `cos` constantly 1 and `sqrt = id`. -/
def modelOnes : FloatModel :=
  ⟨fun _ => 1, fun _ => 1, fun _ _ => 0, id, id, 180⟩

/-- A test satellite for the triangulation counterexample: only the id,
azimuth, elevation and signal strength matter to the triangulator. -/
def mkTestSat (id : String) (az el sig : ℚ) : Sat :=
  ⟨id, "TEST", 0, 0, az, el, 0, 0, 0, 0, 0, 0, 0, 0, 0, 0, sig, 0, 1⟩

/-- The four-satellite test configuration used for the triangulation
boundary analysis: distinct ids, azimuths 0/90/180/270, elevation 45,
full signal strength. -/
def testSats : List Sat :=
  [mkTestSat "a" 0 45 1, mkTestSat "b" 90 45 1,
   mkTestSat "c" 180 45 1, mkTestSat "d" 270 45 1]

/-! ## Spec-side definitions used to state refinement claims -/

/-- Modelled from the spec: the named base-weight table
`{device: 0.25, satellite: 0.30, trajectory: 0.25, inertial: 0.15,
movement: 0.05}` (the source tags the inertial entry `imu` and the
movement entry `gps`). -/
def baseWeight : SourceTag → ℚ
  | .device => 0.25
  | .satellite => 0.3
  | .trajectory => 0.25
  | .imu => 0.15
  | .gps => 0.05

/-- The effective weight each source actually enters the fusion loop with:
base × confidence for device and gps sources, but base × confidence² for
satellite, trajectory and imu sources (their table weight is already
scaled by confidence before the loop multiplies by confidence again). -/
def amendedEffectiveWeight : SourceTag → ℚ → ℚ
  | .device, c => 0.25 * c
  | .satellite, c => 0.3 * c * c
  | .trajectory, c => 0.25 * c * c
  | .imu, c => 0.15 * c * c
  | .gps, c => 0.05 * c

/-- Modelled from the spec: the weighted circular mean over
(heading, effective-weight) pairs — unit-vector accumulation, `atan2`,
normalisation to [0, 360), with overall confidence `min(1, W / 0.5)`;
unavailable when no sources are present or the total weight is not
positive. -/
def circularMeanSpec (M : FloatModel) (pairs : List (ℚ × ℚ)) :
    Option (ℚ × ℚ) :=
  if pairs.length = 0 then none
  else
    let W := (pairs.map Prod.snd).sum
    let s := (pairs.map fun p => M.sin (p.1 * M.pi / 180) * p.2).sum
    let c := (pairs.map fun p => M.cos (p.1 * M.pi / 180) * p.2).sum
    if 0 < W then some (headingFromAtan2 M (s / W) (c / W), min 1 (W / 0.5))
    else none

/-- The circular-mean round trip used by single-source fusion: feeding a
heading through `sin`/`cos` and back through the source's
`atan2 · 180 / π` plus normalisation. -/
def roundTripDeg (M : FloatModel) (h : ℚ) : ℚ :=
  headingFromAtan2 M (M.sin (h * M.pi / 180)) (M.cos (h * M.pi / 180))

/-! ## Helper lemmas -/

theorem norm360_range (x : ℚ) (h1 : -180 < x) (h2 : x ≤ 180) :
    0 ≤ norm360 x ∧ norm360 x < 360 := by
  unfold norm360
  split <;> constructor <;> linarith

theorem headingFromAtan2_range (M : FloatModel)
    (hA : ∀ y x : ℚ, -180 < M.atan2 y x * 180 / M.pi ∧
          M.atan2 y x * 180 / M.pi ≤ 180) (y x : ℚ) :
    0 ≤ headingFromAtan2 M y x ∧ headingFromAtan2 M y x < 360 :=
  norm360_range _ (hA y x).1 (hA y x).2

theorem keplerLoop_nonconverged (M : FloatModel) (m e tol : ℚ)
    (hne : ∀ k, k < 20 → tol < |keplerD M m e k|) :
    ∀ fuel j, fuel + j = 20 →
      keplerLoop M m e tol fuel (keplerE M m e j) (keplerD M m e j) =
        keplerE M m e 20 := by
  intro fuel
  induction fuel with
  | zero => intro j hj; simp at hj; subst hj; rfl
  | succ n ih =>
    intro j hj
    have hjlt : j < 20 := by omega
    have hd := hne j hjlt
    rw [keplerLoop]
    rw [if_pos hd]
    dsimp only
    have heq : keplerE M m e j -
        (keplerE M m e j - e * M.sin (keplerE M m e j) - m) /
          (1 - e * M.cos (keplerE M m e j)) = keplerE M m e (j + 1) := by
      rw [keplerE]
    rw [heq]
    have hd2 : (keplerE M m e j - e * M.sin (keplerE M m e j) - m) /
        (1 - e * M.cos (keplerE M m e j)) = keplerD M m e (j + 1) := by
      rw [keplerD]
    rw [hd2]
    exact ih (j + 1) (by omega)

theorem keplerE_modelKepler (n : ℕ) :
    keplerE modelKepler 1 2 n = 2 ^ (n + 1) - 1 := by
  induction n with
  | zero => norm_num [keplerE]
  | succ m ih =>
    rw [keplerE]
    rw [ih]
    simp only [modelKepler]
    norm_num
    ring

theorem keplerD_modelKepler (n : ℕ) :
    keplerD modelKepler 1 2 (n + 1) = -(2 ^ (n + 1)) := by
  rw [keplerD]
  rw [keplerE_modelKepler]
  simp only [modelKepler]
  norm_num
  ring

theorem keplerD_big (k : ℕ) (hk : k < 20) :
    (1e-6 : ℚ) < |keplerD modelKepler 1 2 k| := by
  cases k with
  | zero => norm_num [keplerD]
  | succ m =>
    rw [keplerD_modelKepler]
    rw [abs_neg, abs_pow]
    have h1 : (1 : ℚ) ≤ |(2 : ℚ)| ^ (m + 1) := one_le_pow₀ (by norm_num)
    have h2 : (1e-6 : ℚ) < 1 := by norm_num
    linarith

theorem fuseList_eq_circularMeanSpec (M : FloatModel) (l : List FusionSource) :
    (fuseList M l).map (fun r => (r.heading, r.confidence)) =
      circularMeanSpec M (l.map fun s => (s.heading, s.weight * s.confidence)) := by
  unfold fuseList circularMeanSpec
  rw [List.length_map]
  by_cases h : l.length = 0
  · rw [if_pos h, if_pos h]
    rfl
  · rw [if_neg h, if_neg h]
    rw [List.map_map, List.map_map, List.map_map]
    have hW : (l.map fun s => s.weight * s.confidence).sum =
        (l.map (Prod.snd ∘ fun s => (s.heading, s.weight * s.confidence))).sum := rfl
    have hs : (l.map fun s => M.sin (s.heading * M.pi / 180) * (s.weight * s.confidence)).sum =
        (l.map ((fun p : ℚ × ℚ => M.sin (p.1 * M.pi / 180) * p.2) ∘
          fun s => (s.heading, s.weight * s.confidence))).sum := rfl
    have hc : (l.map fun s => M.cos (s.heading * M.pi / 180) * (s.weight * s.confidence)).sum =
        (l.map ((fun p : ℚ × ℚ => M.cos (p.1 * M.pi / 180) * p.2) ∘
          fun s => (s.heading, s.weight * s.confidence))).sum := rfl
    rw [← hW, ← hs, ← hc]
    dsimp only
    by_cases hW0 : 0 < (l.map fun s => s.weight * s.confidence).sum
    · rw [if_pos hW0, if_pos hW0]
      rfl
    · rw [if_neg hW0, if_neg hW0]
      rfl

theorem fuseList_singleton (M : FloatModel) (s : FusionSource)
    (hw : 0 < s.weight * s.confidence) :
    fuseList M [s] = some ⟨roundTripDeg M s.heading,
      min 1 (s.weight * s.confidence / 0.5), [s]⟩ := by
  unfold fuseList
  rw [if_neg (by simp)]
  dsimp only
  simp only [List.map_cons, List.map_nil, List.sum_cons, List.sum_nil, add_zero]
  rw [if_pos hw]
  rw [mul_div_cancel_right₀ _ (ne_of_gt hw), mul_div_cancel_right₀ _ (ne_of_gt hw)]
  rfl

/-! ## Claim C1 — fusion effective weights -/

/-- Claim C1 is false as stated: a satellite source with confidence 1/2
enters the fusion loop with effective weight `(0.3 · 1/2) · 1/2 = 3/40`,
not `baseWeight(satellite) · 1/2 = 3/20` — the table weight is already
scaled by the confidence before the loop multiplies by the confidence
again.  Observable consequence: the fused confidence is
`min(1, 0.075/0.5) = 0.15`, whereas the claimed effective weight would
give `min(1, 0.15/0.5) = 0.3`. -/
theorem claim1_counterexample :
    buildSources false none (some ⟨0, 1/2⟩) none none none =
        [⟨0, 3/20, .satellite, 1/2⟩] ∧
    (3/20 : ℚ) * (1/2) ≠ baseWeight .satellite * (1/2) ∧
    (fuseCompassSources modelEval false none (some ⟨0, 1/2⟩) none none none).map
        FusionResult.confidence = some (3/20) ∧
    (3/20 : ℚ) ≠ min 1 (baseWeight .satellite * (1/2) / 0.5) :=
  of_decide_eq_true (by with_unfolding_all rfl)

/-- Claim C1 (amended): every source enters the weighted circular average
with effective weight base × confidence for the device and movement/gps
sources but base × confidence² for the satellite, trajectory and inertial
sources (whose table weight is pre-scaled by their confidence); under these
code effective weights the fused heading and confidence are exactly the
weighted circular mean of the source headings. -/
theorem claim1_fusion_effective_weights (M : FloatModel) (calibrated : Bool)
    (dev : Option ℚ) (sat traj : Option NorthResult) (imu gps : Option ℚ) :
    (∀ s ∈ buildSources calibrated dev sat traj imu gps,
       s.weight * s.confidence = amendedEffectiveWeight s.tag s.confidence) ∧
    ((fuseCompassSources M calibrated dev sat traj imu gps).map
        (fun r => (r.heading, r.confidence)) =
      circularMeanSpec M ((buildSources calibrated dev sat traj imu gps).map
        fun s => (s.heading, s.weight * s.confidence))) := by
  constructor
  · intro s hs
    simp only [buildSources, List.append_assoc, List.mem_append] at hs
    rcases hs with h | h | h | h | h
    · cases dev with
      | none => simp at h
      | some d =>
        simp at h
        subst h
        rfl
    · cases sat with
      | none => simp at h
      | some s0 =>
        simp at h
        subst h
        rfl
    · cases traj with
      | none => simp at h
      | some t0 =>
        simp at h
        subst h
        rfl
    · cases imu with
      | none => simp at h
      | some i0 =>
        simp at h
        subst h
        cases calibrated <;> rfl
    · cases gps with
      | none => simp at h
      | some g0 =>
        simp at h
        subst h
        rfl
  · exact fuseList_eq_circularMeanSpec M _

/-- Witness for C1: the device source of a concrete fusion call has
effective weight `0.25 · 0.8`, and that call's heading/confidence agree
with the spec's weighted circular mean at the code effective weights. -/
theorem claim1_witness :
    ((⟨10, 0.25, SourceTag.device, 0.8⟩ : FusionSource).weight * 0.8 =
      amendedEffectiveWeight SourceTag.device 0.8) ∧
    ((fuseCompassSources modelEval false (some 10) none none none none).map
        (fun r => (r.heading, r.confidence)) =
      circularMeanSpec modelEval ((buildSources false (some 10) none none none none).map
        fun s => (s.heading, s.weight * s.confidence))) :=
  ⟨(claim1_fusion_effective_weights modelEval false (some 10) none none none none).1
      ⟨10, 0.25, SourceTag.device, 0.8⟩ (by simp [buildSources]),
   (claim1_fusion_effective_weights modelEval false (some 10) none none none none).2⟩

/-! ## Claim C2 — headings lie in [0, 360) -/

/-- Claim C2 is false as stated: with `event.alpha = 0` (a legal
DeviceOrientationEvent value) and no `webkitCompassHeading`, the device
compass reading is `360 - 0 = 360`, and the emitted smoothed device
heading is exactly 360, which is not in [0, 360). -/
theorem claim2_counterexample :
    deviceCompassOf none 0 = 360 ∧
    smoothedCompassOf [] (deviceCompassOf none 0) = 360 ∧
    ¬ (smoothedCompassOf [] (deviceCompassOf none 0) < 360) :=
  of_decide_eq_true (by with_unfolding_all rfl)

/-- Claim C2 (amended): whenever the model's `atan2·180/π` lands in
(-180, 180] — as the real `Math.atan2` does — every heading produced by
the satellite triangulator, the trajectory predictor, the IMU filter, the
movement estimator and the fusion engine lies in [0, 360); the
device-compass fallback `360 - alpha` instead lies in (0, 360] for alpha
in [0, 360), reaching 360 exactly at alpha = 0. -/
theorem claim2_heading_ranges (M : FloatModel)
    (hA : ∀ y x : ℚ, -180 < M.atan2 y x * 180 / M.pi ∧
          M.atan2 y x * 180 / M.pi ≤ 180) :
    (∀ alpha : ℚ, 0 ≤ alpha → alpha < 360 →
       0 < deviceCompassOf none alpha ∧ deviceCompassOf none alpha ≤ 360) ∧
    (∀ sats r, calculateAdvancedSatelliteTriangulationNorth M sats = some r →
       0 ≤ r.north ∧ r.north < 360) ∧
    (∀ sats prev r, calculateEnhancedTrajectoryPredictedNorth M sats prev = some r →
       0 ≤ r.north ∧ r.north < 360) ∧
    (∀ st acc rot ori h, (processIMUData M st acc rot ori).2 = some h →
       0 ≤ h ∧ h < 360) ∧
    (∀ c p h, (calculateMovementMetrics M c p).gpsHeading = some h →
       0 ≤ h ∧ h < 360) ∧
    (∀ calib dev sat traj imu gps r,
       fuseCompassSources M calib dev sat traj imu gps = some r →
       0 ≤ r.heading ∧ r.heading < 360) := by
  refine ⟨?_, ?_, ?_, ?_, ?_, ?_⟩
  · intro alpha h0 h1
    unfold deviceCompassOf
    dsimp only
    constructor <;> linarith
  · intro sats r h
    unfold calculateAdvancedSatelliteTriangulationNorth at h
    dsimp only at h
    split at h
    · exact absurd h (by simp)
    · split at h
      · exact absurd h (by simp)
      · split at h
        · split at h
          · rw [Option.some_inj] at h
            subst h
            exact headingFromAtan2_range M hA _ _
          · exact absurd h (by simp)
        · exact absurd h (by simp)
  · intro sats prev r h
    unfold calculateEnhancedTrajectoryPredictedNorth at h
    split at h
    · exact absurd h (by simp)
    · dsimp only at h
      split at h
      · exact absurd h (by simp)
      · split at h
        · exact absurd h (by simp)
        · split at h
          · split at h
            · rw [Option.some_inj] at h
              subst h
              exact headingFromAtan2_range M hA _ _
            · exact absurd h (by simp)
          · exact absurd h (by simp)
  · intro st acc rot ori h hh
    unfold processIMUData at hh
    split at hh
    · exact absurd hh (by simp)
    · dsimp only at hh
      split at hh
      · rw [Prod.snd] at hh
        rw [Option.some_inj] at hh
        subst hh
        exact headingFromAtan2_range M hA _ _
      · split at hh
        · split at hh
          · exact absurd hh (by simp)
          · rw [Prod.snd, Option.some_inj] at hh
            subst hh
            exact headingFromAtan2_range M hA _ _
        · rw [Prod.snd, Option.some_inj] at hh
          subst hh
          exact headingFromAtan2_range M hA _ _
  · intro c p h hh
    unfold calculateMovementMetrics at hh
    split at hh
    · dsimp only at hh
      split at hh
      · exact absurd hh (by simp)
      · split at hh
        · exact absurd hh (by simp)
        · dsimp only at hh
          split at hh
          · rw [Option.some_inj] at hh
            subst hh
            exact headingFromAtan2_range M hA _ _
          · exact absurd hh (by simp)
    · exact absurd hh (by simp)
  · intro calib dev sat traj imu gps r h
    unfold fuseCompassSources fuseList at h
    split at h
    · exact absurd h (by simp)
    · dsimp only at h
      split at h
      · rw [Option.some_inj] at h
        subst h
        exact headingFromAtan2_range M hA _ _
      · exact absurd h (by simp)

/-- Witness for C2's amended theorem: a concrete fusion call under a model
whose atan2 lands in range yields a heading inside [0, 360). -/
theorem claim2_witness :
    ∃ r, fuseCompassSources modelRange false (some 10) none none none none =
        some r ∧ 0 ≤ r.heading ∧ r.heading < 360 := by
  have he : fuseCompassSources modelRange false (some 10) none none none none =
      some ⟨90, 0.4, [⟨10, 0.25, .device, 0.8⟩]⟩ :=
    of_decide_eq_true (by with_unfolding_all rfl)
  exact ⟨_, he, (claim2_heading_ranges modelRange
    (by intro y x; norm_num [modelRange])).2.2.2.2.2 false (some 10)
    none none none none _ he⟩

/-! ## Claim C3 — Kepler solver fallback -/

/-- Claim C3 is false as stated: under a model with `sin = id`, `cos = 0`,
mean anomaly 1 and eccentricity 2, the solver never meets the 1e-6
tolerance in its 20 iterations, yet it returns `2097151 = 2²¹ - 1` (the
20th Newton iterate), not the mean anomaly 1. -/
theorem claim3_counterexample :
    (∀ k, k < 20 → (1e-6 : ℚ) < |keplerD modelKepler 1 2 k|) ∧
    solveKeplerEquation modelKepler 1 2 = 2097151 ∧ (2097151 : ℚ) ≠ 1 := by
  refine ⟨keplerD_big, ?_, by norm_num⟩
  have h20 : solveKeplerEquation modelKepler 1 2 = keplerE modelKepler 1 2 20 :=
    keplerLoop_nonconverged modelKepler 1 2 (1e-6) keplerD_big 20 0 rfl
  rw [h20, keplerE_modelKepler]
  norm_num

/-- Claim C3 (amended): the solver runs Newton-Raphson with tolerance 1e-6
for at most 20 iterations; when it has not converged within those 20
iterations (every computed delta stays above the tolerance) it returns the
20th Newton iterate, not the mean anomaly — the mean-anomaly fallback of
the source lives only in its exception handler. -/
theorem claim3_kepler_nonconvergence (M : FloatModel) (m e : ℚ)
    (hne : ∀ k, k < 20 → (1e-6 : ℚ) < |keplerD M m e k|) :
    solveKeplerEquation M m e = keplerE M m e 20 :=
  keplerLoop_nonconverged M m e (1e-6) hne 20 0 rfl

/-- Witness for C3's amended theorem at the diverging concrete instance. -/
theorem claim3_witness :
    solveKeplerEquation modelKepler 1 2 = keplerE modelKepler 1 2 20 :=
  claim3_kepler_nonconvergence modelKepler 1 2 keplerD_big

/-! ## Claim C4 — NaN/missing coordinates in the position smoother -/

/-- Claim C4 describes the intended behaviour (also spelled out by the
source's own dead `isNaN` branch), but the code disagrees: because `NaN`
and `undefined` are falsy, the first guard
`!previousPos || !newPos.latitude || !newPos.longitude` captures them and
returns the RAW fix — propagating the invalid coordinate — before the
NaN-recovery branch that would return the previous smoothed position can
run.  This theorem evaluates the smoother at the failing inputs: a NaN
latitude (and an absent latitude) with a previous value returns the raw
invalid fix, not the previous position. -/
theorem claim4_nan_returns_raw :
    smoothPosition ⟨JsNum.nan, JsNum.num 1⟩ (some ⟨JsNum.num 51, JsNum.num 1⟩)
        (JsNum.num 5) = ⟨JsNum.nan, JsNum.num 1⟩ ∧
    (smoothPosition ⟨JsNum.nan, JsNum.num 1⟩ (some ⟨JsNum.num 51, JsNum.num 1⟩)
        (JsNum.num 5)).latitude ≠ JsNum.num 51 ∧
    smoothPosition ⟨JsNum.undef, JsNum.num 1⟩ (some ⟨JsNum.num 51, JsNum.num 1⟩)
        (JsNum.num 5) = ⟨JsNum.undef, JsNum.num 1⟩ := by decide

/-! ## Claim C5 — single-source fusion -/

/-- Claim C5 is false as stated: a single available satellite source with
confidence 0 yields effective weight 0, so the engine returns null instead
of a heading equal to that source's heading. -/
theorem claim5_counterexample :
    buildSources false none (some ⟨90, 0⟩) none none none =
        [⟨90, 0.3 * 0, .satellite, 0⟩] ∧
    fuseCompassSources modelEval false none (some ⟨90, 0⟩) none none none = none :=
  of_decide_eq_true (by with_unfolding_all rfl)

/-- Claim C5 (amended): when the fusion engine is given exactly one
available source whose confidence is positive (device, imu and gps
confidences are fixed positive constants; satellite and trajectory need
confidence > 0) and whose heading lies in [0, 360), and the model's
circular-mean round trip is exact (as for real sin/cos/atan2), the fused
heading equals that source's heading and the reported confidence is at
most the source's own confidence. -/
theorem claim5_single_source (M : FloatModel)
    (hRT : ∀ h : ℚ, 0 ≤ h → h < 360 → roundTripDeg M h = h) :
    (∀ (calibrated : Bool) (d : ℚ), 0 ≤ d → d < 360 →
       ∃ r, fuseCompassSources M calibrated (some d) none none none none = some r ∧
         r.heading = d ∧ r.confidence ≤ 0.8) ∧
    (∀ (calibrated : Bool) (n c : ℚ), 0 ≤ n → n < 360 → 0 < c →
       ∃ r, fuseCompassSources M calibrated none (some ⟨n, c⟩) none none none = some r ∧
         r.heading = n ∧ r.confidence ≤ c) ∧
    (∀ (calibrated : Bool) (n c : ℚ), 0 ≤ n → n < 360 → 0 < c →
       ∃ r, fuseCompassSources M calibrated none none (some ⟨n, c⟩) none none = some r ∧
         r.heading = n ∧ r.confidence ≤ c) ∧
    (∀ (calibrated : Bool) (h : ℚ), 0 ≤ h → h < 360 →
       ∃ r, fuseCompassSources M calibrated none none none (some h) none = some r ∧
         r.heading = h ∧
         r.confidence ≤ (if calibrated then (0.9 : ℚ) else 0.6)) ∧
    (∀ (calibrated : Bool) (g : ℚ), 0 ≤ g → g < 360 →
       ∃ r, fuseCompassSources M calibrated none none none none (some g) = some r ∧
         r.heading = g ∧ r.confidence ≤ 0.7) := by
  refine ⟨?_, ?_, ?_, ?_, ?_⟩
  · intro calibrated d h0 h1
    have hb : buildSources calibrated (some d) none none none none =
        [⟨d, 0.25, .device, 0.8⟩] := by cases calibrated <;> rfl
    unfold fuseCompassSources
    rw [hb, fuseList_singleton M _ (by norm_num)]
    refine ⟨_, rfl, ?_, ?_⟩
    · exact hRT d h0 h1
    · norm_num
  · intro calibrated n c h0 h1 hc
    have hb : buildSources calibrated none (some ⟨n, c⟩) none none none =
        [⟨n, 0.3 * c, .satellite, c⟩] := by cases calibrated <;> rfl
    unfold fuseCompassSources
    rw [hb, fuseList_singleton M _ (by dsimp only; nlinarith)]
    refine ⟨_, rfl, ?_, ?_⟩
    · exact hRT n h0 h1
    · dsimp only
      rcases le_or_lt c 1 with hle | hlt
      · have e : (0.3 : ℚ) * c * c / 0.5 = 0.6 * (c * c) := by ring
        have hcc : c * c ≤ c := mul_le_of_le_one_left (le_of_lt hc) hle
        calc min 1 (0.3 * c * c / 0.5) ≤ 0.3 * c * c / 0.5 := min_le_right _ _
        _ ≤ c := by rw [e]; linarith
      · calc min 1 (0.3 * c * c / 0.5) ≤ 1 := min_le_left _ _
        _ ≤ c := le_of_lt hlt
  · intro calibrated n c h0 h1 hc
    have hb : buildSources calibrated none none (some ⟨n, c⟩) none none =
        [⟨n, 0.25 * c, .trajectory, c⟩] := by cases calibrated <;> rfl
    unfold fuseCompassSources
    rw [hb, fuseList_singleton M _ (by dsimp only; nlinarith)]
    refine ⟨_, rfl, ?_, ?_⟩
    · exact hRT n h0 h1
    · dsimp only
      rcases le_or_lt c 1 with hle | hlt
      · have e : (0.25 : ℚ) * c * c / 0.5 = 0.5 * (c * c) := by ring
        have hcc : c * c ≤ c := mul_le_of_le_one_left (le_of_lt hc) hle
        calc min 1 (0.25 * c * c / 0.5) ≤ 0.25 * c * c / 0.5 := min_le_right _ _
        _ ≤ c := by rw [e]; linarith
      · calc min 1 (0.25 * c * c / 0.5) ≤ 1 := min_le_left _ _
        _ ≤ c := le_of_lt hlt
  · intro calibrated h h0 h1
    cases calibrated with
    | false =>
      have hb : buildSources false none none none (some h) none =
          [⟨h, 0.15 * 0.6, .imu, 0.6⟩] := rfl
      unfold fuseCompassSources
      rw [hb, fuseList_singleton M _ (by norm_num)]
      refine ⟨_, rfl, hRT h h0 h1, by norm_num⟩
    | true =>
      have hb : buildSources true none none none (some h) none =
          [⟨h, 0.15 * 0.9, .imu, 0.9⟩] := rfl
      unfold fuseCompassSources
      rw [hb, fuseList_singleton M _ (by norm_num)]
      refine ⟨_, rfl, hRT h h0 h1, by norm_num⟩
  · intro calibrated g h0 h1
    have hb : buildSources calibrated none none none none (some g) =
        [⟨g, 0.05, .gps, 0.7⟩] := by cases calibrated <;> rfl
    unfold fuseCompassSources
    rw [hb, fuseList_singleton M _ (by norm_num)]
    refine ⟨_, rfl, hRT g h0 h1, by norm_num⟩

/-- Witness for C5's amended theorem: a lone device source with heading 10
fuses to exactly 10 with confidence at most 0.8. -/
theorem claim5_witness :
    ∃ r, fuseCompassSources modelEval false (some 10) none none none none = some r ∧
      r.heading = 10 ∧ r.confidence ≤ 0.8 :=
  (claim5_single_source modelEval (by
    intro h h0 h1
    unfold roundTripDeg headingFromAtan2 norm360 modelEval
    dsimp only [id]
    have e : h * 180 / 180 * 180 / 180 = h := by ring
    rw [e, if_neg (not_lt.mpr h0)])).1 false 10 (by norm_num) (by norm_num)

/-! ## Claim C6 — satellite geometry model is pure -/

/-- Claim C6: the satellite geometry model is a pure function of
(latitude, longitude, altitude, timestamp).  In the source the function
body reads none of the component's mutable refs, which the embedding
reflects: the observation set computed by the `processCompassData`
satellite step does not depend on the satellite-history state, and two
calls with identical inputs return identical observation sets. -/
theorem claim6_satellite_determinism (M : FloatModel)
    (h1 h2 : List SatSnapshot) (lat lon alt t : ℚ) :
    (compassSatelliteStep M h1 lat lon alt t).1 =
      (compassSatelliteStep M h2 lat lon alt t).1 ∧
    ∀ t2, t = t2 → calculateSatellitePositions M lat lon alt t =
      calculateSatellitePositions M lat lon alt t2 :=
  ⟨rfl, fun _ ht => ht ▸ rfl⟩

/-- Witness for C6 at a concrete location, timestamp and two distinct
history states. -/
theorem claim6_witness :
    (compassSatelliteStep modelEval [⟨[], 0⟩] 51 0 0 5).1 =
      (compassSatelliteStep modelEval [] 51 0 0 5).1 ∧
    calculateSatellitePositions modelEval 51 0 0 5 =
      calculateSatellitePositions modelEval 51 0 0 5 :=
  ⟨(claim6_satellite_determinism modelEval [⟨[], 0⟩] [] 51 0 0 5).1,
   (claim6_satellite_determinism modelEval [⟨[], 0⟩] [] 51 0 0 5).2 5 rfl⟩

/-! ## Claim C7 — movement threshold policy -/

/-- Claim C7 is false as stated: with a current position on the equator
(latitude exactly 0) and a sub-threshold nonzero displacement, the guard
`!currentPos.latitude` treats the 0 coordinate as missing and returns
speed 0 and heading null, although the claim prescribes
speed = distance/Δt ≠ 0 for this pair. -/
theorem claim7_counterexample :
    calculateMovementMetrics modelEval (some ⟨0, 1, 1000⟩)
        (some ⟨1/1000000, 1, 0⟩) = ⟨none, 0, 0⟩ ∧
    movementDistance modelEval ⟨0, 1, 1000⟩ ⟨1/1000000, 1, 0⟩ ≤ 0.5 ∧
    (0 : ℚ) < ((1000 : ℚ) - 0) / 1000 ∧
    movementDistance modelEval ⟨0, 1, 1000⟩ ⟨1/1000000, 1, 0⟩ /
      (((1000 : ℚ) - 0) / 1000) ≠ 0 :=
  of_decide_eq_true (by with_unfolding_all rfl)

/-- Claim C7 (amended): for consecutive positions with all four
coordinates nonzero and positive elapsed time, a displacement of at most
0.5 m yields heading null and speed = distance/Δt; identical fixes yield
speed 0 and heading null; and a heading is emitted only when the elapsed
time is positive and the distance exceeds 0.5 m. -/
theorem claim7_movement_threshold (M : FloatModel) (hs0 : M.sqrt 0 = 0)
    (c p : MovePos) (hclat : c.latitude ≠ 0) (hclon : c.longitude ≠ 0)
    (hplat : p.latitude ≠ 0) (hplon : p.longitude ≠ 0)
    (hdt : 0 < (c.timestamp - p.timestamp) / 1000) :
    (movementDistance M c p ≤ 0.5 →
       (calculateMovementMetrics M (some c) (some p)).gpsHeading = none ∧
       (calculateMovementMetrics M (some c) (some p)).calculatedSpeed =
         movementDistance M c p / ((c.timestamp - p.timestamp) / 1000)) ∧
    (c.latitude = p.latitude → c.longitude = p.longitude →
       (calculateMovementMetrics M (some c) (some p)).calculatedSpeed = 0 ∧
       (calculateMovementMetrics M (some c) (some p)).gpsHeading = none) ∧
    (∀ c2 p2 : Option MovePos,
       (calculateMovementMetrics M c2 p2).gpsHeading ≠ none →
       ∃ c3 p3, c2 = some c3 ∧ p2 = some p3 ∧
         0 < (c3.timestamp - p3.timestamp) / 1000 ∧
         0.5 < movementDistance M c3 p3) := by
  have hguard : ¬ (c.latitude = 0 ∨ c.longitude = 0 ∨ p.latitude = 0 ∨ p.longitude = 0) := by
    push_neg
    exact ⟨hclat, hclon, hplat, hplon⟩
  have hmain : calculateMovementMetrics M (some c) (some p) =
      ⟨(if 0.5 < movementDistance M c p then
          some (headingFromAtan2 M ((c.longitude - p.longitude) *
            (111320 * M.cos (c.latitude * M.pi / 180)))
            ((c.latitude - p.latitude) * 111320)) else none),
        movementDistance M c p / ((c.timestamp - p.timestamp) / 1000),
        movementDistance M c p⟩ := by
    unfold calculateMovementMetrics
    dsimp only
    rw [if_neg hguard, if_neg (by linarith : ¬ (c.timestamp - p.timestamp) / 1000 ≤ 0)]
    rfl
  refine ⟨?_, ?_, ?_⟩
  · intro hle
    rw [hmain]
    exact ⟨by rw [if_neg (by linarith)], rfl⟩
  · intro hlat hlon
    have hd0 : movementDistance M c p = 0 := by
      unfold movementDistance
      rw [hlat, hlon]
      simp [sub_self, hs0]
    rw [hmain, hd0]
    constructor
    · simp
    · rw [if_neg (by norm_num)]
  · intro c2 p2 hne
    match c2, p2 with
    | none, none => simp [calculateMovementMetrics] at hne
    | none, some p3 => simp [calculateMovementMetrics] at hne
    | some c3, none => simp [calculateMovementMetrics] at hne
    | some c3, some p3 =>
      refine ⟨c3, p3, rfl, rfl, ?_⟩
      unfold calculateMovementMetrics at hne
      dsimp only at hne
      by_cases hg : c3.latitude = 0 ∨ c3.longitude = 0 ∨ p3.latitude = 0 ∨ p3.longitude = 0
      · rw [if_pos hg] at hne
        simp at hne
      · rw [if_neg hg] at hne
        by_cases hdt2 : (c3.timestamp - p3.timestamp) / 1000 ≤ 0
        · rw [if_pos hdt2] at hne
          simp at hne
        · rw [if_neg hdt2] at hne
          refine ⟨by linarith [not_le.mp hdt2], ?_⟩
          by_cases hbig : (0.5 : ℚ) < movementDistance M c3 p3
          · exact hbig
          · exfalso
            apply hne
            dsimp only
            rw [if_neg ?_]
            exact hbig

/-- Witness for C7's amended theorem: identical consecutive fixes one
second apart produce speed 0 and no heading. -/
theorem claim7_witness :
    (calculateMovementMetrics modelEval (some ⟨51, 1, 1000⟩)
        (some ⟨51, 1, 0⟩)).calculatedSpeed = 0 ∧
    (calculateMovementMetrics modelEval (some ⟨51, 1, 1000⟩)
        (some ⟨51, 1, 0⟩)).gpsHeading = none :=
  (claim7_movement_threshold modelEval rfl ⟨51, 1, 1000⟩ ⟨51, 1, 0⟩
    (by norm_num) (by norm_num) (by norm_num) (by norm_num) (by norm_num)).2.1 rfl rfl

/-! ## Claim C8 — triangulator unavailability conditions -/

/-- Claim C8 is false as stated at the boundary: a configuration of four
good satellites whose normalised resultant magnitude is exactly 0.1 (not
below 0.1) still returns null, because the source requires
`magnitude > 0.1` strictly. -/
theorem claim8_counterexample :
    calculateAdvancedSatelliteTriangulationNorth modelTiny testSats = none ∧
    ¬ ((goodSatellitesOf testSats).length < 4) ∧
    ¬ (triMagnitude modelTiny (goodSatellitesOf testSats) < 0.1) :=
  of_decide_eq_true (by with_unfolding_all rfl)

/-- Claim C8 (amended): the triangulator returns unavailable exactly when
fewer than 4 satellites pass the quality filter (elevation > 15°, signal
strength > 0.3), or the accumulated weight is not positive, or the
normalised resultant magnitude is at most 0.1 (boundary inclusive); in
every other case it returns a heading with a confidence value. -/
theorem claim8_triangulation_unavailable (M : FloatModel)
    (satellites : List Sat) :
    (calculateAdvancedSatelliteTriangulationNorth M satellites = none ↔
      ((goodSatellitesOf satellites).length < 4 ∨
       triTotalWeight M (goodSatellitesOf satellites) ≤ 0 ∨
       triMagnitude M (goodSatellitesOf satellites) ≤ 0.1)) ∧
    (¬ ((goodSatellitesOf satellites).length < 4 ∨
        triTotalWeight M (goodSatellitesOf satellites) ≤ 0 ∨
        triMagnitude M (goodSatellitesOf satellites) ≤ 0.1) →
      ∃ r, calculateAdvancedSatelliteTriangulationNorth M satellites = some r) := by
  have hfil : (goodSatellitesOf satellites).length ≤ satellites.length :=
    List.length_filter_le _ _
  constructor
  · unfold calculateAdvancedSatelliteTriangulationNorth
    dsimp only
    by_cases h1 : satellites.length < 4
    · rw [if_pos h1]
      simp only [true_iff]
      exact Or.inl (lt_of_le_of_lt hfil h1)
    · rw [if_neg h1]
      by_cases h2 : (goodSatellitesOf satellites).length < 4
      · rw [if_pos h2]
        simp only [true_iff]
        exact Or.inl h2
      · rw [if_neg h2]
        by_cases h3 : 0 < triTotalWeight M (goodSatellitesOf satellites)
        · rw [if_pos h3]
          by_cases h4 : (0.1 : ℚ) < triMagnitude M (goodSatellitesOf satellites)
          · rw [if_pos h4]
            simp only [reduceCtorEq, false_iff]
            push_neg
            exact ⟨not_lt.mp h2, h3, h4⟩
          · rw [if_neg h4]
            simp only [true_iff]
            exact Or.inr (Or.inr (not_lt.mp h4))
        · rw [if_neg h3]
          simp only [true_iff]
          exact Or.inr (Or.inl (not_lt.mp h3))
  · intro hn
    push_neg at hn
    obtain ⟨hg, hw, hm⟩ := hn
    unfold calculateAdvancedSatelliteTriangulationNorth
    dsimp only
    rw [if_neg (by omega : ¬ satellites.length < 4),
      if_neg (not_lt.mpr hg), if_pos hw, if_pos hm]
    exact ⟨_, rfl⟩

/-- Witness for C8's amended theorem: a well-separated four-satellite
configuration produces a result. -/
theorem claim8_witness :
    ∃ r, calculateAdvancedSatelliteTriangulationNorth modelOnes testSats = some r :=
  (claim8_triangulation_unavailable modelOnes testSats).2
    (of_decide_eq_true (by with_unfolding_all rfl))

/-! ## Claim C9 — dead reckoning -/

/-- Claim C9: a dead-reckoning prediction made with zero estimated
velocity returns the last known position unchanged with accuracy no
smaller than the last real fix's accuracy; and the predictor returns
nothing when fewer than two history points exist, when less than 100 ms
has elapsed since the last GPS update, or when the Δt of the last two
history entries is nonpositive. -/
theorem claim9_dead_reckoning (lp : LastPos) (history : List HistEntry)
    (lastGps now : ℚ) :
    (∀ latest previous, lastTwo history = some (latest, previous) →
       ¬ history.length < 2 → 100 ≤ now - lastGps →
       0 < (latest.timestamp - previous.timestamp) / 1000 →
       latest.lat = previous.lat → latest.lon = previous.lon →
       0 ≤ lp.accuracy →
       ∃ r, predictPosition (some lp) history lastGps now = some r ∧
         r.latitude = latest.lat ∧ r.longitude = latest.lon ∧
         lp.accuracy ≤ r.accuracy) ∧
    (history.length < 2 → predictPosition (some lp) history lastGps now = none) ∧
    (now - lastGps < 100 → predictPosition (some lp) history lastGps now = none) ∧
    (∀ latest previous, lastTwo history = some (latest, previous) →
       (latest.timestamp - previous.timestamp) / 1000 ≤ 0 →
       predictPosition (some lp) history lastGps now = none) := by
  refine ⟨?_, ?_, ?_, ?_⟩
  · intro latest previous hlt hlen hfresh hdt hlat hlon hacc
    unfold predictPosition
    dsimp only
    rw [if_neg hlen, if_neg (by linarith : ¬ now - lastGps < 100), hlt]
    dsimp only
    rw [if_neg (by linarith : ¬ (latest.timestamp - previous.timestamp) / 1000 ≤ 0)]
    refine ⟨_, rfl, ?_, ?_, ?_⟩
    · simp [hlat, sub_self]
    · simp [hlon, sub_self]
    · have ht : (0.1 : ℚ) ≤ (now - lastGps) / 1000 := by linarith
      nlinarith [mul_nonneg hacc (le_trans (by norm_num) ht)]
  · intro hlen
    unfold predictPosition
    dsimp only
    rw [if_pos hlen]
  · intro hfresh
    unfold predictPosition
    dsimp only
    by_cases hlen : history.length < 2
    · rw [if_pos hlen]
    · rw [if_neg hlen, if_pos hfresh]
  · intro latest previous hlt hdt
    unfold predictPosition
    dsimp only
    by_cases hlen : history.length < 2
    · rw [if_pos hlen]
    · rw [if_neg hlen]
      by_cases hfresh : now - lastGps < 100
      · rw [if_pos hfresh]
      · rw [if_neg hfresh, hlt]
        dsimp only
        rw [if_pos hdt]

/-- Witness for C9 at a concrete zero-velocity history: the prediction
repeats the last position with degraded accuracy 6 ≥ 5. -/
theorem claim9_witness :
    ∃ r, predictPosition (some ⟨51, 0, 1000, 5⟩)
        [⟨51, 0, 5, 0⟩, ⟨51, 0, 5, 1000⟩] 1000 1200 = some r ∧
      r.latitude = 51 ∧ r.longitude = 0 ∧ (5 : ℚ) ≤ r.accuracy :=
  (claim9_dead_reckoning ⟨51, 0, 1000, 5⟩ [⟨51, 0, 5, 0⟩, ⟨51, 0, 5, 1000⟩]
      1000 1200).1 ⟨51, 0, 5, 1000⟩ ⟨51, 0, 5, 0⟩ rfl (by norm_num)
    (by norm_num) (by norm_num) rfl rfl (by norm_num)

/-! ## Claim C10 — zero coordinates skip smoothing -/

/-- Claim C10: a raw fix whose latitude or longitude is exactly 0 is
falsy under the smoother's first guard, so the smoother returns the raw
coordinates unblended even when a previous smoothed position exists. -/
theorem claim10_zero_coordinate (newPos prev : JsPos) (accuracy : JsNum)
    (h : newPos.latitude = JsNum.num 0 ∨ newPos.longitude = JsNum.num 0) :
    smoothPosition newPos (some prev) accuracy =
      ⟨newPos.latitude, newPos.longitude⟩ := by
  unfold smoothPosition
  rcases h with h | h <;> rw [h] <;> simp [JsNum.falsy]

/-- Witness for C10: a fix at latitude 0 with a previous position is
returned raw. -/
theorem claim10_witness :
    smoothPosition ⟨JsNum.num 0, JsNum.num 10⟩ (some ⟨JsNum.num 5, JsNum.num 6⟩)
      (JsNum.num 5) = ⟨JsNum.num 0, JsNum.num 10⟩ :=
  claim10_zero_coordinate ⟨JsNum.num 0, JsNum.num 10⟩ ⟨JsNum.num 5, JsNum.num 6⟩
    (JsNum.num 5) (Or.inl rfl)

end WorldInAR
